import Mathlib

/-!
Verification development for the TopoModelX tutorial repository.

The repository consists of two Jupyter notebooks stored in
`tutorials/simplicial/sca_cmps_train.ipynb`: an SCA-CMPS notebook and a
DHGCN notebook.  Both load the shrec16 dataset, derive neighborhood
matrices from the precomputed simplicial complexes, and instantiate a
model imported from the external `topomodelx` package; the DHGCN
notebook additionally runs a train/test loop.

The development has two layers:
1. a syntactic embedding: the code cells of both notebooks are
   transliterated into a small Python AST (`PyExpr` / `PyStmt`), over
   which decidable scanners settle claims about what the notebooks
   contain (imports, definitions, train loops, mutation of arrays);
2. a semantic embedding: the DHGCN training/evaluation loop, the
   sklearn `train_test_split` call, and the SCA-CMPS pre-processing loop
   are embedded as pure functions parameterized by opaque external
   library operations (torch, toponetx), and theorems establish the
   behavior the specification claims.
-/

/-! ## Syntactic layer: a small Python AST -/

mutual

/-- Python expressions, restricted to the forms occurring in the two
notebooks.  `ratLit p q` renders the float literal `p/q` (the notebooks
only use `0.2` and `0.1`); `kw k v` is a keyword argument `k=v` in a
call; `fstring parts` is an f-string whose interpolated expressions and
literal text fragments are listed in order (format specifiers such as
`.4f` are dropped); `dictComp v it` is the dict comprehension
`{key: v for key, value in it}` from the dataset-load cell. -/
inductive PyExpr where
  | name (s : String)
  | num (n : Int)
  | ratLit (p q : Int)
  | str (s : String)
  | boolLit (b : Bool)
  | attr (e : PyExpr) (f : String)
  | call (f : PyExpr) (args : PyArgs)
  | kw (k : String) (v : PyExpr)
  | subscript (e : PyExpr) (i : PyExpr)
  | tuple (es : PyArgs)
  | listLit (es : PyArgs)
  | fstring (es : PyArgs)
  | binop (op : String) (a b : PyExpr)
  | ternary (c t e : PyExpr)
  | dictComp (v : PyExpr) (it : PyExpr)

/-- A list of expressions (call arguments, tuple elements, ...). -/
inductive PyArgs where
  | nil
  | cons (e : PyExpr) (es : PyArgs)

end

mutual

/-- Python statements, restricted to the forms occurring in the two
notebooks.  `assign ts e` is `t1, ..., tn = e` (plain name targets);
`augAssign` and `subAssign` (`x += e`, `x[i] = e`) are included so that
the mutation scanner covers them, although neither occurs in the
notebooks; `funcDef`/`classDef` are included so that the absence of
local definitions is a checkable property. -/
inductive PyStmt where
  | imp (module : String)
  | assign (targets : List String) (rhs : PyExpr)
  | augAssign (target : String) (op : String) (rhs : PyExpr)
  | subAssign (target : PyExpr) (idx : PyExpr) (rhs : PyExpr)
  | exprS (e : PyExpr)
  | forS (vars : List String) (iter : PyExpr) (body : PyBlock)
  | ifS (cond : PyExpr) (body : PyBlock)
  | withS (ctx : PyExpr) (body : PyBlock)
  | funcDef (nm : String) (body : PyBlock)
  | classDef (nm : String) (body : PyBlock)

/-- A block: a list of statements. -/
inductive PyBlock where
  | nil
  | cons (s : PyStmt) (ss : PyBlock)

end

/-- A notebook is its list of code cells, each cell a block. -/
def Notebook : Type := List PyBlock

mutual

/-- Does some sub-expression satisfy `p`? -/
def exprAny (p : PyExpr → Bool) : PyExpr → Bool
  | .name s => p (.name s)
  | .num n => p (.num n)
  | .ratLit a b => p (.ratLit a b)
  | .str s => p (.str s)
  | .boolLit b => p (.boolLit b)
  | .attr e f => p (.attr e f) || exprAny p e
  | .call f args => p (.call f args) || exprAny p f || argsAny p args
  | .kw k v => p (.kw k v) || exprAny p v
  | .subscript e i => p (.subscript e i) || exprAny p e || exprAny p i
  | .tuple es => p (.tuple es) || argsAny p es
  | .listLit es => p (.listLit es) || argsAny p es
  | .fstring es => p (.fstring es) || argsAny p es
  | .binop op a b => p (.binop op a b) || exprAny p a || exprAny p b
  | .ternary c t e => p (.ternary c t e) || exprAny p c || exprAny p t || exprAny p e
  | .dictComp v it => p (.dictComp v it) || exprAny p v || exprAny p it

/-- Does some expression in the list have a sub-expression satisfying `p`? -/
def argsAny (p : PyExpr → Bool) : PyArgs → Bool
  | .nil => false
  | .cons e es => exprAny p e || argsAny p es

end

mutual

/-- Does some expression contained in the statement (right-hand sides,
iterators, conditions, bodies — not assignment targets) have a
sub-expression satisfying `p`? -/
def stmtExprAny (p : PyExpr → Bool) : PyStmt → Bool
  | .imp _ => false
  | .assign _ rhs => exprAny p rhs
  | .augAssign _ _ rhs => exprAny p rhs
  | .subAssign t i rhs => exprAny p t || exprAny p i || exprAny p rhs
  | .exprS e => exprAny p e
  | .forS _ it body => exprAny p it || blockExprAny p body
  | .ifS c body => exprAny p c || blockExprAny p body
  | .withS c body => exprAny p c || blockExprAny p body
  | .funcDef _ body => blockExprAny p body
  | .classDef _ body => blockExprAny p body

/-- `stmtExprAny` over a block. -/
def blockExprAny (p : PyExpr → Bool) : PyBlock → Bool
  | .nil => false
  | .cons s ss => stmtExprAny p s || blockExprAny p ss

end

mutual

/-- Does some statement (including statements nested in loop/if/with
bodies) satisfy `p`? -/
def stmtAnyS (p : PyStmt → Bool) : PyStmt → Bool
  | .forS vs it body => p (.forS vs it body) || blockAnyS p body
  | .ifS c body => p (.ifS c body) || blockAnyS p body
  | .withS c body => p (.withS c body) || blockAnyS p body
  | .funcDef nm body => p (.funcDef nm body) || blockAnyS p body
  | .classDef nm body => p (.classDef nm body) || blockAnyS p body
  | s => p s

/-- `stmtAnyS` over a block. -/
def blockAnyS (p : PyStmt → Bool) : PyBlock → Bool
  | .nil => false
  | .cons s ss => stmtAnyS p s || blockAnyS p ss

end

/-- Does the notebook contain an expression satisfying `p`? -/
def nbExprAny (p : PyExpr → Bool) (nb : Notebook) : Bool :=
  nb.any (blockExprAny p)

/-- Does the notebook contain a statement satisfying `p`? -/
def nbAnyS (p : PyStmt → Bool) (nb : Notebook) : Bool :=
  nb.any (blockAnyS p)

/-- The expression reads the variable `n` (occurs as a bare name). -/
def isNameRef (n : String) : PyExpr → Bool
  | .name s => s == n
  | _ => false

/-- The statement reads the variable `n` somewhere in its expressions. -/
def stmtReads (n : String) (s : PyStmt) : Bool :=
  stmtExprAny (isNameRef n) s

/-- The block reads the variable `n`. -/
def blockReads (n : String) (b : PyBlock) : Bool :=
  blockExprAny (isNameRef n) b

/-- The expression is a call of a method named `m` (on any receiver). -/
def isMethodCall (m : String) : PyExpr → Bool
  | .call (.attr _ f) _ => f == m
  | _ => false

/-- Python list/dict methods that mutate their receiver in place. -/
def mutatingMethods : List String :=
  ["append", "extend", "insert", "pop", "remove", "clear", "sort",
   "reverse", "update", "setdefault", "popitem"]

/-- The expression is a call of an in-place mutating method on the
variable `n`. -/
def isMutCallOn (n : String) : PyExpr → Bool
  | .call (.attr (.name r) f) _ => r == n && mutatingMethods.contains f
  | _ => false

/-- The statement (or a statement nested inside it) rebinds, augments,
subscript-assigns, or calls an in-place mutating method on `n`. -/
def stmtMutates (n : String) (s : PyStmt) : Bool :=
  stmtAnyS (fun t =>
    match t with
    | .assign ts _ => ts.contains n
    | .augAssign t0 _ _ => t0 == n
    | .subAssign t0 _ _ => exprAny (isNameRef n) t0
    | .forS vs _ _ => vs.contains n
    | _ => false) s
  || stmtExprAny (isMutCallOn n) s

/-- The block mutates `n` in the sense of `stmtMutates`. -/
def blockMutates (n : String) (b : PyBlock) : Bool :=
  match b with
  | .nil => false
  | .cons s ss => stmtMutates n s || blockMutates n ss

/-- From cell index `i` on, no cell of the notebook mutates `n`. -/
def neverMutatedFrom (nb : Notebook) (i : Nat) (n : String) : Bool :=
  (nb.drop i).all (fun c => !(blockMutates n c))

/-- The statement is a `for` loop whose body calls both a `backward`
method and a `step` method: the shape of a gradient-descent train loop. -/
def isTrainLoop : PyStmt → Bool
  | .forS _ _ body =>
      blockExprAny (isMethodCall "backward") body
        && blockExprAny (isMethodCall "step") body
  | _ => false

/-- The notebook contains a train loop. -/
def hasTrainLoop (nb : Notebook) : Bool :=
  nbAnyS isTrainLoop nb

/-- The notebook defines a function or a class of its own. -/
def definesFuncOrClass (nb : Notebook) : Bool :=
  nbAnyS (fun s =>
    match s with
    | .funcDef _ _ => true
    | .classDef _ _ => true
    | _ => false) nb

/-! ## Transliteration of the two notebooks

Helper constructors shorten the transliteration; they build AST nodes
only and add no semantics. -/

/-- Build a `PyArgs` from a Lean list. -/
def pyArgs : List PyExpr → PyArgs
  | [] => .nil
  | e :: es => .cons e (pyArgs es)

/-- Build a `PyBlock` from a Lean list. -/
def pyBlock : List PyStmt → PyBlock
  | [] => .nil
  | s :: ss => .cons s (pyBlock ss)

/-- A bare name. -/
def nm (s : String) : PyExpr := .name s

/-- A method call `e.f(args)`. -/
def meth (e : PyExpr) (f : String) (args : List PyExpr) : PyExpr :=
  .call (.attr e f) (pyArgs args)

/-- A call of a bare name `f(args)`. -/
def fn (f : String) (args : List PyExpr) : PyExpr :=
  .call (.name f) (pyArgs args)

/-- The expression `arr[i].shape[k]`. -/
def shapeIx (arr : String) (i : PyExpr) (k : Int) : PyExpr :=
  .subscript (.attr (.subscript (nm arr) i) "shape") (.num k)

/-- The expression `torch.from_numpy(e.todense()).to_sparse()`. -/
def torchSparse (e : PyExpr) : PyExpr :=
  meth (.call (.attr (nm "torch") "from_numpy") (pyArgs [meth e "todense" []])) "to_sparse" []

/-- The call `train_test_split(arr, test_size=test_size, shuffle=False)`. -/
def splitCall (arr : String) : PyExpr :=
  fn "train_test_split"
    [nm arr, .kw "test_size" (nm "test_size"), .kw "shuffle" (.boolLit false)]

/-- The cell `device = torch.device("cuda" if torch.cuda.is_available()
else "cpu")` followed by `print(device)` (identical in both notebooks). -/
def deviceCell : PyBlock := pyBlock
  [.assign ["device"] (.call (.attr (nm "torch") "device")
      (pyArgs [.ternary (meth (.attr (nm "torch") "cuda") "is_available" [])
        (.str "cuda") (.str "cpu")])),
   .exprS (fn "print" [nm "device"])]

/-- The shared prefix of both dataset-load cells: `shrec, _ =
datasets.mesh.shrec_16(size="small")`, the `np.array` dict
comprehension, and the three feature-array and label reads.  The final
assignment (`scs` resp. `simplexes`) differs per notebook. -/
def loadStmts (complexesVar : String) : List PyStmt :=
  [.assign ["shrec", "_"] (.call (.attr (.attr (nm "datasets") "mesh") "shrec_16")
      (pyArgs [.kw "size" (.str "small")])),
   .assign ["shrec"] (.dictComp (.call (.attr (nm "np") "array") (pyArgs [nm "value"]))
      (meth (nm "shrec") "items" [])),
   .assign ["x_0s"] (.subscript (nm "shrec") (.str "node_feat")),
   .assign ["x_1s"] (.subscript (nm "shrec") (.str "edge_feat")),
   .assign ["x_2s"] (.subscript (nm "shrec") (.str "face_feat")),
   .assign ["ys"] (.subscript (nm "shrec") (.str "label")),
   .assign [complexesVar] (.subscript (nm "shrec") (.str "complexes"))]

/-- The `i_complex = 6` cell with its three diagnostic prints (identical
in both notebooks). -/
def iComplexCell : PyBlock := pyBlock
  [.assign ["i_complex"] (.num 6),
   .exprS (fn "print" [.fstring (pyArgs
      [.str "The ", nm "i_complex", .str "th simplicial complex has ",
       shapeIx "x_0s" (nm "i_complex") 0, .str " nodes with features of dimension ",
       shapeIx "x_0s" (nm "i_complex") 1, .str "."])]),
   .exprS (fn "print" [.fstring (pyArgs
      [.str "The ", nm "i_complex", .str "th simplicial complex has ",
       shapeIx "x_1s" (nm "i_complex") 0, .str " edges with features of dimension ",
       shapeIx "x_1s" (nm "i_complex") 1, .str "."])]),
   .exprS (fn "print" [.fstring (pyArgs
      [.str "The ", nm "i_complex", .str "th simplicial complex has ",
       shapeIx "x_2s" (nm "i_complex") 0, .str " faces with features of dimension ",
       shapeIx "x_2s" (nm "i_complex") 1, .str "."])])]

/-- SCA-CMPS notebook, cell 4: the neighborhood-matrix derivation loop
over `scs`. -/
def scaDerivationCell : PyBlock := pyBlock
  [.assign ["laplacian_down_1_list"] (.listLit (pyArgs [])),
   .assign ["laplacian_down_2_list"] (.listLit (pyArgs [])),
   .assign ["incidence1_t_list"] (.listLit (pyArgs [])),
   .assign ["incidence2_t_list"] (.listLit (pyArgs [])),
   .forS ["sc"] (nm "scs") (pyBlock
     [.assign ["laplacian_down_1"] (meth (nm "sc") "down_laplacian_matrix" [.kw "rank" (.num 1)]),
      .assign ["laplacian_down_2"] (meth (nm "sc") "down_laplacian_matrix" [.kw "rank" (.num 2)]),
      .assign ["incidence_1_t"] (.attr (meth (nm "sc") "incidence_matrix" [.kw "rank" (.num 1)]) "T"),
      .assign ["incidence_2_t"] (.attr (meth (nm "sc") "incidence_matrix" [.kw "rank" (.num 2)]) "T"),
      .assign ["laplacian_down_1"] (torchSparse (nm "laplacian_down_1")),
      .assign ["laplacian_down_2"] (torchSparse (nm "laplacian_down_2")),
      .assign ["incidence_1_t"] (torchSparse (nm "incidence_1_t")),
      .assign ["incidence_2_t"] (torchSparse (nm "incidence_2_t")),
      .exprS (meth (nm "laplacian_down_1_list") "append" [nm "laplacian_down_1"]),
      .exprS (meth (nm "laplacian_down_2_list") "append" [nm "laplacian_down_2"]),
      .exprS (meth (nm "incidence1_t_list") "append" [nm "incidence_1_t"]),
      .exprS (meth (nm "incidence2_t_list") "append" [nm "incidence_2_t"])])]

/-- The code cells of the SCA-CMPS notebook, in order. -/
def scaCells : Notebook :=
  [ -- cell 0: imports
    pyBlock [.imp "torch", .imp "numpy", .imp "toponetx.datasets",
             .imp "sklearn.model_selection.train_test_split",
             .imp "topomodelx.nn.simplicial.sca_cmps.SCACMPS"],
    -- cell 1: device selection
    deviceCell,
    -- cell 2: dataset load
    pyBlock (loadStmts "scs"),
    -- cell 3: i_complex diagnostics
    iComplexCell,
    -- cell 4: neighborhood-matrix derivation loop
    scaDerivationCell,
    -- cell 5: channels_list and complex_dim
    pyBlock [.assign ["channels_list"] (.listLit (pyArgs
               [shapeIx "x_0s" (.num 0) (-1), shapeIx "x_1s" (.num 0) (-1),
                shapeIx "x_2s" (.num 0) (-1)])),
             .assign ["complex_dim"] (.num 3)],
    -- cell 6: x_0s.shape
    pyBlock [.exprS (.attr (nm "x_0s") "shape")],
    -- cell 7: train/test split
    pyBlock [.assign ["test_size"] (.ratLit 1 5),
             .assign ["x_0_train", "x_0_test"] (splitCall "x_0s"),
             .assign ["x_1_train", "x_1_test"] (splitCall "x_1s"),
             .assign ["x_2_train", "x_2_test"] (splitCall "x_2s"),
             .assign ["laplacian_down_1_train", "laplacian_down_1_test"]
               (splitCall "laplacian_down_1_list"),
             .assign ["laplacian_down_2_train", "laplacian_down_2_test"]
               (splitCall "laplacian_down_2_list"),
             .assign ["incidence1_t_train", "incidence1_t_test"]
               (splitCall "incidence1_t_list"),
             .assign ["incidence2_t_train", "incidence2_t_test"]
               (splitCall "incidence2_t_list"),
             .assign ["y_train", "y_test"] (splitCall "ys"),
             .exprS (.attr (nm "y_train") "shape")],
    -- cell 8: model, optimizer and loss construction (the final cell)
    pyBlock [.assign ["model"] (fn "SCACMPS"
               [.kw "channels_list" (nm "channels_list"),
                .kw "complex_dim" (nm "complex_dim"),
                .kw "n_classes" (.num 1), .kw "n_layers" (.num 3),
                .kw "att" (.boolLit false)]),
             .assign ["model"] (meth (nm "model") "to" [nm "device"]),
             .assign ["opt"] (.call (.attr (.attr (nm "torch") "optim") "Adam")
               (pyArgs [meth (nm "model") "parameters" [], .kw "lr" (.ratLit 1 10)])),
             .assign ["loss_fn"] (.call (.attr (.attr (nm "torch") "nn") "MSELoss")
               (pyArgs []))]]

/-- DHGCN notebook: the statement `x_0 = torch.tensor(x_0)` (appears in
both the training and the evaluation inner loop). -/
def toTensorStmt : PyStmt :=
  .assign ["x_0"] (.call (.attr (nm "torch") "tensor") (pyArgs [nm "x_0"]))

/-- DHGCN notebook: the statement `x_0, y = (x_0.float().to(device),
torch.tensor(y, dtype=torch.float).to(device))` (appears in both inner
loops). -/
def castPairStmt : PyStmt :=
  .assign ["x_0", "y"] (.tuple (pyArgs
    [meth (meth (nm "x_0") "float" []) "to" [nm "device"],
     meth (.call (.attr (nm "torch") "tensor")
        (pyArgs [nm "y", .kw "dtype" (.attr (nm "torch") "float")])) "to" [nm "device"]]))

/-- DHGCN notebook, cell 6: the pre-processing loop building
`incidence_1_list` and `hg_list` from each simplicial complex. -/
def dhgcnBuildCell : PyBlock := pyBlock
  [.assign ["hg_list"] (.listLit (pyArgs [])),
   .assign ["incidence_1_list"] (.listLit (pyArgs [])),
   .forS ["simplex"] (nm "simplexes") (pyBlock
     [.assign ["incidence_1"] (meth (nm "simplex") "incidence_matrix"
        [.kw "rank" (.num 1), .kw "signed" (.boolLit false)]),
      .assign ["incidence_1"] (torchSparse (nm "incidence_1")),
      .exprS (meth (nm "incidence_1_list") "append" [nm "incidence_1"]),
      .assign ["hg"] (meth (nm "simplex") "to_hypergraph" []),
      .exprS (meth (nm "hg_list") "append" [nm "hg"])])]

/-- DHGCN notebook, cell 11: the train/test loop. -/
def dhgcnTrainCell : PyBlock := pyBlock
  [.assign ["test_interval"] (.num 1),
   .assign ["num_epochs"] (.num 5),
   .forS ["epoch_i"] (fn "range" [.num 1, .binop "+" (nm "num_epochs") (.num 1)]) (pyBlock
     [.assign ["epoch_loss"] (.listLit (pyArgs [])),
      .exprS (meth (nm "model") "train" []),
      .forS ["x_0", "y"] (fn "zip" [nm "x_0_train", nm "y_train"]) (pyBlock
        [toTensorStmt,
         castPairStmt,
         .exprS (meth (nm "opt") "zero_grad" []),
         .assign ["y_hat"] (fn "model" [nm "x_0"]),
         .assign ["loss"] (fn "loss_fn" [nm "y_hat", nm "y"]),
         .exprS (meth (nm "loss") "backward" []),
         .exprS (meth (nm "opt") "step" []),
         .exprS (meth (nm "epoch_loss") "append" [meth (nm "loss") "item" []])]),
      .exprS (fn "print"
        [.fstring (pyArgs [.str "Epoch: ", nm "epoch_i", .str " loss: ",
           .call (.attr (nm "np") "mean") (pyArgs [nm "epoch_loss"])]),
         .kw "flush" (.boolLit true)]),
      .ifS (.binop "==" (.binop "%" (nm "epoch_i") (nm "test_interval")) (.num 0)) (pyBlock
        [.withS (.call (.attr (nm "torch") "no_grad") (pyArgs [])) (pyBlock
          [.forS ["x_0", "y"] (fn "zip" [nm "x_0_test", nm "y_test"]) (pyBlock
            [toTensorStmt,
             castPairStmt,
             .assign ["y_hat"] (fn "model" [nm "x_0"]),
             .assign ["loss"] (fn "loss_fn" [nm "y_hat", nm "y"])]),
           .exprS (fn "print"
             [.fstring (pyArgs [.str "Test_loss: ", nm "loss"]),
              .kw "flush" (.boolLit true)])])])])]

/-- The code cells of the DHGCN notebook, in order. -/
def dhgcnCells : Notebook :=
  [ -- cell 0: imports
    pyBlock [.imp "torch", .imp "numpy",
             .imp "sklearn.model_selection.train_test_split",
             .imp "toponetx.datasets",
             .imp "topomodelx.nn.hypergraph.dhgcn.DHGCN"],
    -- cell 1: device selection
    deviceCell,
    -- cell 2: dataset load
    pyBlock (loadStmts "simplexes"),
    -- cell 3: dataset shapes
    pyBlock [.exprS (.tuple (pyArgs
      [.attr (nm "x_0s") "shape", .attr (nm "x_1s") "shape",
       .attr (nm "x_2s") "shape", .attr (nm "ys") "shape",
       .attr (nm "simplexes") "shape"]))],
    -- cell 4: per-sample shapes
    pyBlock [.exprS (.tuple (pyArgs
      [.attr (.subscript (nm "x_0s") (.num 4)) "shape",
       .attr (.subscript (nm "x_1s") (.num 0)) "shape",
       .attr (.subscript (nm "x_2s") (.num 0)) "shape"]))],
    -- cell 5: i_complex diagnostics
    iComplexCell,
    -- cell 6: hypergraph lift and incidence-matrix loop
    dhgcnBuildCell,
    -- cell 7: incidence-matrix shape print
    pyBlock [.assign ["i_complex"] (.num 6),
             .exprS (fn "print" [.fstring (pyArgs
               [.str "The ", nm "i_complex",
                .str "th hypergraph has an incidence matrix of shape ",
                .attr (.subscript (nm "incidence_1_list") (nm "i_complex")) "shape",
                .str "."])])],
    -- cell 8: channels and model construction
    pyBlock [.assign ["channels_edge"] (shapeIx "x_1s" (.num 0) 1),
             .assign ["channels_node"] (shapeIx "x_0s" (.num 0) 1),
             .assign ["model"] (fn "DHGCN" [nm "channels_node", .kw "n_layers" (.num 2)]),
             .assign ["model"] (meth (nm "model") "to" [nm "device"])],
    -- cell 9: loss and optimizer
    pyBlock [.assign ["loss_fn"] (.call (.attr (.attr (nm "torch") "nn") "MSELoss")
               (pyArgs [])),
             .assign ["opt"] (.call (.attr (.attr (nm "torch") "optim") "Adam")
               (pyArgs [meth (nm "model") "parameters" [], .kw "lr" (.ratLit 1 10)]))],
    -- cell 10: train/test split
    pyBlock [.assign ["test_size"] (.ratLit 1 5),
             .assign ["x_0_train", "x_0_test"] (splitCall "x_0s"),
             .assign ["y_train", "y_test"] (splitCall "ys")],
    -- cell 11: train/test loop
    dhgcnTrainCell]

/-! ## Semantic layer

External library operations (torch models/optimizers, toponetx matrix
constructors) are opaque to the notebooks; they enter the embedding as
fields of operation records over abstract types.  Loss values are
modelled as rationals. -/

/-- Models `sklearn.model_selection.train_test_split(l, test_size=q,
shuffle=False)`: with `shuffle=False` sklearn takes the test set as the
final `⌈q * len(l)⌉` elements and the training set as the initial
remainder, both in original order, returned as `(train, test)`. -/
def train_test_split {α : Type} (l : List α) (test_size : ℚ) : List α × List α :=
  let n_test := (Int.ceil (test_size * (l.length : ℚ))).toNat
  (l.take (l.length - n_test), l.drop (l.length - n_test))

/-- The external operations used by the SCA-CMPS pre-processing loop:
`sc.down_laplacian_matrix(rank=r)` and `sc.incidence_matrix(rank=r)`
from toponetx, scipy matrix transposition `.T`, and the conversion
`torch.from_numpy(m.todense()).to_sparse()`. -/
structure ScaExternalOps (SC Mat Tensor : Type) where
  down_laplacian_matrix : SC → Nat → Mat
  incidence_matrix : SC → Nat → Mat
  transposeT : Mat → Mat
  toSparseTensor : Mat → Tensor

/-- One iteration of the SCA-CMPS pre-processing loop body: derive the
two down-Laplacians and the two transposed incidence matrices of `sc`,
convert each to a sparse tensor, and append each to its list. -/
def scaLoopStep {SC Mat Tensor : Type} (ops : ScaExternalOps SC Mat Tensor)
    (acc : List Tensor × List Tensor × List Tensor × List Tensor) (sc : SC) :
    List Tensor × List Tensor × List Tensor × List Tensor :=
  let laplacian_down_1 := ops.down_laplacian_matrix sc 1
  let laplacian_down_2 := ops.down_laplacian_matrix sc 2
  let incidence_1_t := ops.transposeT (ops.incidence_matrix sc 1)
  let incidence_2_t := ops.transposeT (ops.incidence_matrix sc 2)
  (acc.1 ++ [ops.toSparseTensor laplacian_down_1],
   acc.2.1 ++ [ops.toSparseTensor laplacian_down_2],
   acc.2.2.1 ++ [ops.toSparseTensor incidence_1_t],
   acc.2.2.2 ++ [ops.toSparseTensor incidence_2_t])

/-- The SCA-CMPS pre-processing loop over `scs`, starting from four
empty lists: returns `(laplacian_down_1_list, laplacian_down_2_list,
incidence1_t_list, incidence2_t_list)`. -/
def scaPreprocess {SC Mat Tensor : Type} (ops : ScaExternalOps SC Mat Tensor)
    (scs : List SC) : List Tensor × List Tensor × List Tensor × List Tensor :=
  scs.foldl (scaLoopStep ops) ([], [], [], [])

/-- Trace events of the DHGCN train/test loop.  The two print events
carry the printed numeric payloads; `print_test_loss` carries an
`Option` because the printed variable `loss` might be unbound (it is
bound only once some loop iteration has assigned it). -/
inductive Ev where
  | model_train_mode
  | zero_grad
  | forward
  | loss_compute
  | backward
  | opt_step
  | eval_forward
  | eval_loss_compute
  | print_epoch_loss (epoch : Nat) (v : ℚ)
  | print_test_loss (v : Option ℚ)
  deriving DecidableEq, Repr

/-- The external torch/topomodelx operations used by the DHGCN
train/test loop, over abstract types: `Feat`/`Lab` are the raw per-mesh
feature arrays and labels, `T` torch tensors, `M` the model (parameters
and gradient buffers), `O` the Adam optimizer state.
`toTensorFloat x` is `torch.tensor(x).float().to(device)`;
`toLabelTensor y` is `torch.tensor(y, dtype=torch.float).to(device)`;
`trainMode` is `model.train()`; `zero_grad` is `opt.zero_grad()`;
`forward m x` is `model(x)`; `lossVal a b` is the numeric value of
`loss_fn(a, b)` (MSE); `backward m x y` is `loss.backward()`, adding
the gradients of the loss at input `x` and target `y` into the
gradient buffers of `m`; `step m o` is `opt.step()`, updating the parameters
and optimizer state. -/
structure TorchDhgcnOps (Feat Lab T M O : Type) where
  toTensorFloat : Feat → T
  toLabelTensor : Lab → T
  trainMode : M → M
  zero_grad : M → M
  forward : M → T → T
  lossVal : T → T → ℚ
  backward : M → T → T → M
  step : M → O → M × O

section DhgcnRun

variable {Feat Lab T M O : Type}

/-- The mutable state of the DHGCN train/test loop: the model, the
optimizer state, and the current value of the Python variable `loss`
(`none` while still unbound). -/
def DState (M O : Type) : Type := M × O × Option ℚ

/-- One iteration of the DHGCN training inner loop, for one sample
`(x_0, y)`: tensor conversion, `opt.zero_grad()`, `y_hat = model(x_0)`,
`loss = loss_fn(y_hat, y)`, `loss.backward()`, `opt.step()`.  Returns
the new state, the numeric loss appended to `epoch_loss`
(`loss.item()`), and the emitted events in execution order. -/
def trainSample (ops : TorchDhgcnOps Feat Lab T M O) (st : DState M O)
    (p : Feat × Lab) : DState M O × ℚ × List Ev :=
  let x_0 := ops.toTensorFloat p.1
  let y := ops.toLabelTensor p.2
  let m1 := ops.zero_grad st.1
  let y_hat := ops.forward m1 x_0
  let l := ops.lossVal y_hat y
  let m2 := ops.backward m1 x_0 y
  let mo := ops.step m2 st.2.1
  ((mo.1, mo.2, some l), l,
   [Ev.zero_grad, Ev.forward, Ev.loss_compute, Ev.backward, Ev.opt_step])

/-- The DHGCN training inner loop `for x_0, y in zip(x_0_train,
y_train)`, threading the state and accumulating `epoch_loss` (started
as `[]`, one appended entry per sample, in sample order) and the
trace. -/
def trainLoop (ops : TorchDhgcnOps Feat Lab T M O) (st : DState M O) :
    List (Feat × Lab) → DState M O × List ℚ × List Ev
  | [] => (st, [], [])
  | p :: ps =>
      let r := trainSample ops st p
      let rest := trainLoop ops r.1 ps
      (rest.1, r.2.1 :: rest.2.1, r.2.2 ++ rest.2.2)

/-- One iteration of the DHGCN evaluation inner loop under
`torch.no_grad()`: tensor conversion, `y_hat = model(x_0)`, `loss =
loss_fn(y_hat, y)`.  Only the `loss` variable is overwritten; the model
and optimizer are read, not changed. -/
def evalSample (ops : TorchDhgcnOps Feat Lab T M O) (st : DState M O)
    (p : Feat × Lab) : DState M O × List Ev :=
  let x_0 := ops.toTensorFloat p.1
  let y := ops.toLabelTensor p.2
  let y_hat := ops.forward st.1 x_0
  let l := ops.lossVal y_hat y
  ((st.1, st.2.1, some l), [Ev.eval_forward, Ev.eval_loss_compute])

/-- The DHGCN evaluation inner loop `for x_0, y in zip(x_0_test,
y_test)`. -/
def evalLoop (ops : TorchDhgcnOps Feat Lab T M O) (st : DState M O) :
    List (Feat × Lab) → DState M O × List Ev
  | [] => (st, [])
  | p :: ps =>
      let r := evalSample ops st p
      let rest := evalLoop ops r.1 ps
      (rest.1, r.2 ++ rest.2)

/-- `np.mean` of a list of rationals. -/
def npMean (l : List ℚ) : ℚ := l.sum / (l.length : ℚ)

/-- `test_interval = 1` from the DHGCN train cell. -/
def test_interval : Nat := 1

/-- `num_epochs = 5` from the DHGCN train cell. -/
def num_epochs : Nat := 5

/-- The body of one epoch of the DHGCN loop, at epoch number `epoch_i`:
`epoch_loss = []`, `model.train()`, the training inner loop, the
epoch-loss print, and — when `epoch_i % test_interval == 0` — the
`torch.no_grad()` evaluation loop followed by the `Test_loss` print of
the current value of the variable `loss`. -/
def epochBody (ops : TorchDhgcnOps Feat Lab T M O)
    (train test : List (Feat × Lab)) (st : DState M O) (epoch_i : Nat) :
    DState M O × List Ev :=
  let st1 : DState M O := (ops.trainMode st.1, st.2.1, st.2.2)
  let r := trainLoop ops st1 train
  let epoch_loss := r.2.1
  let evs := Ev.model_train_mode :: r.2.2
      ++ [Ev.print_epoch_loss epoch_i (npMean epoch_loss)]
  if epoch_i % test_interval == 0 then
    let re := evalLoop ops r.1 test
    (re.1, evs ++ re.2 ++ [Ev.print_test_loss re.1.2.2])
  else
    (r.1, evs)

/-- The epoch loop `for epoch_i in range(epoch_i, epoch_i + n)`: runs
`n` epoch bodies starting at epoch number `epoch_i`, concatenating
their traces. -/
def runEpochs (ops : TorchDhgcnOps Feat Lab T M O)
    (train test : List (Feat × Lab)) (st : DState M O) (epoch_i : Nat) :
    Nat → DState M O × List Ev
  | 0 => (st, [])
  | n + 1 =>
      let r := epochBody ops train test st epoch_i
      let rest := runEpochs ops train test r.1 (epoch_i + 1) n
      (rest.1, r.2 ++ rest.2)

/-- The full DHGCN train/test loop (`for epoch_i in range(1,
num_epochs + 1)`), starting from model `m0`, optimizer state `o0`, and
the variable `loss` unbound, on the zipped training and test sample
lists. -/
def dhgcnRun (ops : TorchDhgcnOps Feat Lab T M O) (m0 : M) (o0 : O)
    (x_0_train : List Feat) (y_train : List Lab)
    (x_0_test : List Feat) (y_test : List Lab) : DState M O × List Ev :=
  runEpochs ops (x_0_train.zip y_train) (x_0_test.zip y_test)
    (m0, o0, none) 1 num_epochs

/-- The state reached after `k` epoch bodies, starting from state `st`
at epoch number `epoch_i` (used to name intermediate states of
`runEpochs` in theorem statements). -/
def stateAt (ops : TorchDhgcnOps Feat Lab T M O)
    (train test : List (Feat × Lab)) (st : DState M O) (epoch_i : Nat) :
    Nat → DState M O
  | 0 => st
  | k + 1 => (epochBody ops train test
      (stateAt ops train test st epoch_i k) (epoch_i + k)).1

end DhgcnRun

/-! ## Syntactic checkers used by the claims -/

/-- The expression is the call `datasets.mesh.shrec_16(...)`. -/
def isShrecLoadCall : PyExpr → Bool
  | .call (.attr (.attr (.name d) "mesh") "shrec_16") _ => d == "datasets"
  | _ => false

/-- The notebook loads the prebuilt shrec16 dataset. -/
def loadsShrec16 (nb : Notebook) : Bool :=
  nbExprAny isShrecLoadCall nb

/-- The notebook derives neighborhood matrices by calling the toponetx
methods `down_laplacian_matrix` or `incidence_matrix`. -/
def derivesNeighborhoodMatrices (nb : Notebook) : Bool :=
  nbExprAny (isMethodCall "down_laplacian_matrix") nb
    || nbExprAny (isMethodCall "incidence_matrix") nb

/-- The notebook imports a name from the external `topomodelx`
package (one of the two model classes used by the repository). -/
def importsFromTopomodelx (nb : Notebook) : Bool :=
  nbAnyS (fun s =>
    match s with
    | .imp m => m == "topomodelx.nn.simplicial.sca_cmps.SCACMPS"
        || m == "topomodelx.nn.hypergraph.dhgcn.DHGCN"
    | _ => false) nb

/-- The notebook assigns `model = cls(...)` for the class name `cls`. -/
def instantiatesModel (nb : Notebook) (cls : String) : Bool :=
  nbAnyS (fun s =>
    match s with
    | .assign ts rhs =>
        ts.contains "model" &&
          (match rhs with
           | .call (.name c) _ => c == cls
           | _ => false)
    | _ => false) nb

/-- The argument list carries the keyword argument `test_size=test_size`. -/
def argsHasTestSizeKw : PyArgs → Bool
  | .nil => false
  | .cons (.kw "test_size" (.name "test_size")) _ => true
  | .cons _ es => argsHasTestSizeKw es

/-- The argument list carries the keyword argument `shuffle=False`. -/
def argsHasShuffleFalse : PyArgs → Bool
  | .nil => false
  | .cons (.kw "shuffle" (.boolLit false)) _ => true
  | .cons _ es => argsHasShuffleFalse es

/-- The expression is a `train_test_split` call missing either
`test_size=test_size` or `shuffle=False`. -/
def isNonstandardSplitCall : PyExpr → Bool
  | .call (.name c) args =>
      c == "train_test_split" && !(argsHasTestSizeKw args && argsHasShuffleFalse args)
  | _ => false

/-- The expression is a `train_test_split` call. -/
def isSplitCall : PyExpr → Bool
  | .call (.name c) _ => c == "train_test_split"
  | _ => false

/-- The statement binds `test_size` to something other than the literal
`0.2`. -/
def isNonstandardTestSizeBind : PyStmt → Bool
  | .assign ts rhs =>
      ts.contains "test_size" &&
        (match rhs with
         | .ratLit 1 5 => false
         | _ => true)
  | .augAssign t _ _ => t == "test_size"
  | _ => false

/-- The notebook calls `train_test_split` at least once, every such
call passes `test_size=test_size` and `shuffle=False`, and `test_size`
is only ever bound to the literal `0.2`. -/
def splitCallsStandard (nb : Notebook) : Bool :=
  nbExprAny isSplitCall nb
    && !(nbExprAny isNonstandardSplitCall nb)
    && !(nbAnyS isNonstandardTestSizeBind nb)

/-- Bare callables in the notebooks that are Python builtins
(`print`, `range`, `zip`), functions imported from external packages
(`train_test_split`, `SCACMPS`, `DHGCN`), or instances of external
classes (`model`, `loss_fn`). -/
def allowedBareCallables : List String :=
  ["print", "range", "zip", "train_test_split", "SCACMPS", "DHGCN",
   "model", "loss_fn"]

/-- Variables bound to external library modules by the import cells (`torch`, `np` for numpy, `datasets` for toponetx.datasets). -/
def allowedExternalRoots : List String := ["torch", "np", "datasets"]

/-- Methods called in the notebooks; each belongs to an external
library object (toponetx complexes, scipy matrices, torch tensors,
models, optimizers) or is a built-in Python list/dict method
(`append`, `items`). -/
def allowedMethodNames : List String :=
  ["items", "down_laplacian_matrix", "incidence_matrix", "todense",
   "to_sparse", "append", "to", "parameters", "train", "zero_grad",
   "step", "backward", "item", "float", "to_hypergraph", "is_available"]

/-- The root name of an attribute/call/subscript chain. -/
def rootName : PyExpr → Option String
  | .name s => some s
  | .attr e _ => rootName e
  | .call f _ => rootName f
  | .subscript e _ => rootName e
  | _ => none

/-- The head of a call is an external or built-in callable: a
whitelisted bare name, a whitelisted method name, or an attribute chain
rooted in an external module. -/
def callHeadExternal : PyExpr → Bool
  | .name s => allowedBareCallables.contains s
  | .attr e f =>
      allowedMethodNames.contains f
        || (rootName (.attr e f)).elim false (fun r => allowedExternalRoots.contains r)
  | _ => false

/-- The expression is a call whose head is not an external or built-in
callable. -/
def isInternalCall : PyExpr → Bool
  | .call f _ => !(callHeadExternal f)
  | _ => false

/-- Every call in the notebook targets an external or built-in
callable. -/
def allCallsExternal (nb : Notebook) : Bool :=
  !(nbExprAny isInternalCall nb)

/-- The expression is a call `model(...)` whose argument list is not
exactly the single bare name `x_0`. -/
def isModelCallNotOnX0 : PyExpr → Bool
  | .call (.name c) args =>
      c == "model" &&
        !(match args with
          | .cons (.name a) .nil => a == "x_0"
          | _ => false)
  | _ => false

/-- The expression is a call `model(...)`. -/
def isModelCall : PyExpr → Bool
  | .call (.name c) _ => c == "model"
  | _ => false

/-- Within the block, `model` is called, and every `model` call has
exactly the single argument `x_0`. -/
def modelCalledOnlyOnX0 (b : PyBlock) : Bool :=
  blockExprAny isModelCall b && !(blockExprAny isModelCallNotOnX0 b)

/-! ## Claims settled on the syntactic layer -/

/-- Claim C1, counterexample.  The claim asserts that every one of the
two notebooks contains and executes a train/test loop after model
construction.  The SCA-CMPS notebook is a concrete counterexample: none
of its cells contains a loop performing a backward pass and an
optimizer step — its final cell constructs the model, optimizer and
loss and the notebook ends there. -/
theorem C1_counterexample : hasTrainLoop scaCells = false := by rfl

/-- Claim C1, amended.  Both notebooks load the prebuilt shrec16
dataset, derive neighborhood matrices from the precomputed simplicial
complexes via external library calls, and instantiate a model class
imported from the external topomodelx package; the DHGCN notebook then
contains and executes a train/test loop, but the SCA-CMPS notebook
contains no train/test loop: it ends with model/optimizer/loss
construction. -/
theorem C1_amended :
    loadsShrec16 scaCells = true
      ∧ derivesNeighborhoodMatrices scaCells = true
      ∧ importsFromTopomodelx scaCells = true
      ∧ instantiatesModel scaCells "SCACMPS" = true
      ∧ hasTrainLoop scaCells = false
      ∧ loadsShrec16 dhgcnCells = true
      ∧ derivesNeighborhoodMatrices dhgcnCells = true
      ∧ importsFromTopomodelx dhgcnCells = true
      ∧ instantiatesModel dhgcnCells "DHGCN" = true
      ∧ hasTrainLoop dhgcnCells = true := by
  refine ⟨?_, ?_, ?_, ?_, ?_, ?_, ?_, ?_, ?_, ?_⟩ <;> rfl

/-- Claim C3, counterexample.  The claim asserts that in the DHGCN
notebook the lists `incidence_1_list` and `hg_list` built during
pre-processing are passed to the model or another framework call during
training or testing.  Concretely false: the train/test loop cell of the
DHGCN notebook never even mentions either name. -/
theorem C3_counterexample :
    (blockReads "incidence_1_list" dhgcnTrainCell
      || blockReads "hg_list" dhgcnTrainCell) = false := by rfl

/-- Claim C3, amended.  The DHGCN pre-processing loop builds
`incidence_1_list` and `hg_list`, but neither is consumed by the model
or by any call during training or testing: the train/test loop cell
mentions neither name; `hg_list` is never read by any later cell at
all; `incidence_1_list` is read by exactly one later cell — the
diagnostic shape print — and by no cell after it; and every `model`
call in the train/test loop receives exactly the single node-feature
argument `x_0`. -/
theorem C3_amended :
    blockReads "incidence_1_list" dhgcnTrainCell = false
      ∧ blockReads "hg_list" dhgcnTrainCell = false
      ∧ (dhgcnCells.drop 7).any (blockReads "hg_list") = false
      ∧ blockReads "incidence_1_list" (dhgcnCells.getD 7 (pyBlock [])) = true
      ∧ (dhgcnCells.drop 8).any (blockReads "incidence_1_list") = false
      ∧ modelCalledOnlyOnX0 dhgcnTrainCell = true := by
  refine ⟨?_, ?_, ?_, ?_, ?_, ?_⟩ <;> rfl

/-- Claim C6: the loaded feature arrays `x_0s`, `x_1s`, `x_2s`, the
label array `ys`, the complex arrays (`scs` resp. `simplexes`), and the
derived matrix/hypergraph lists are built once and never mutated
afterwards.  The dataset arrays are bound in cell 2 of each notebook
(cell indices are 0-based code-cell positions) and the derived lists
are completed by the pre-processing cell (cell 4 in SCA-CMPS, cell 6 in
DHGCN); no later cell rebinds, augments, subscript-assigns, or calls an
in-place mutating method on any of them — all later cells only read
them (splitting, tensor conversion via the copying `torch.tensor`,
training and testing). -/
theorem C6_arrays_not_mutated :
    (["x_0s", "x_1s", "x_2s", "ys", "scs"].all
        (fun n => neverMutatedFrom scaCells 3 n)) = true
      ∧ (["laplacian_down_1_list", "laplacian_down_2_list",
          "incidence1_t_list", "incidence2_t_list"].all
        (fun n => neverMutatedFrom scaCells 5 n)) = true
      ∧ (["x_0s", "x_1s", "x_2s", "ys", "simplexes"].all
        (fun n => neverMutatedFrom dhgcnCells 3 n)) = true
      ∧ (["incidence_1_list", "hg_list"].all
        (fun n => neverMutatedFrom dhgcnCells 7 n)) = true := by
  refine ⟨?_, ?_, ?_, ?_⟩ <;> rfl

/-- Claim C7: the notebooks define no function and no class of their
own, and every call in either notebook targets a Python builtin
(`print`, `range`, `zip`, list/dict methods) or an external-library
callable (torch, numpy, toponetx, sklearn, topomodelx and methods of
their objects): no custom numerical kernel, data structure, or original
algorithm is defined in the notebook code — the only control flow is
the plain iteration over dataset samples and epochs described by the
specification. -/
theorem C7_no_custom_logic :
    definesFuncOrClass scaCells = false
      ∧ definesFuncOrClass dhgcnCells = false
      ∧ allCallsExternal scaCells = true
      ∧ allCallsExternal dhgcnCells = true := by
  refine ⟨?_, ?_, ?_, ?_⟩ <;> rfl

/-! ## Lemmas about the semantic embedding -/

/-- The event sequence emitted for one training sample: zero_grad,
forward, loss computation, backward, optimizer step, in execution
order. -/
def sampleSeq : List Ev :=
  [Ev.zero_grad, Ev.forward, Ev.loss_compute, Ev.backward, Ev.opt_step]

/-- Events of the training inner loop body. -/
def isTrainSampleEv : Ev → Bool
  | .zero_grad => true
  | .forward => true
  | .loss_compute => true
  | .backward => true
  | .opt_step => true
  | _ => false

/-- Epoch-loss print events. -/
def isEpochPrint : Ev → Bool
  | .print_epoch_loss _ _ => true
  | _ => false

/-- Test-loss print events. -/
def isTestPrint : Ev → Bool
  | .print_test_loss _ => true
  | _ => false

/-- Filtering distributes over `List.bind`. -/
theorem filterBind {α β : Type} (l : List α) (f : α → List β) (p : β → Bool) :
    (l.flatMap f).filter p = l.flatMap (fun a => (f a).filter p) := by
  induction l with
  | nil => rfl
  | cons a l ih => simp [List.filter_append, ih]

/-- Binding into constantly empty lists yields the empty list. -/
theorem flatMapNil {α β : Type} (l : List α) :
    (l.flatMap (fun _ => ([] : List β))) = [] := by
  induction l with
  | nil => rfl
  | cons a l ih => simp [ih]

/-- Binding into singletons is mapping. -/
theorem bindSingleton {α β : Type} (l : List α) (f : α → β) :
    (l.flatMap (fun a => [f a])) = l.map f := by
  induction l with
  | nil => rfl
  | cons a l ih => simp [ih]

section DhgcnLemmas

variable {Feat Lab T M O : Type}

/-- The trace of the training inner loop is one `sampleSeq` per
training sample, in order. -/
theorem trainLoop_trace (ops : TorchDhgcnOps Feat Lab T M O) :
    ∀ (st : DState M O) (samples : List (Feat × Lab)),
      (trainLoop ops st samples).2.2 = samples.flatMap (fun _ => sampleSeq) := by
  intro st samples
  induction samples generalizing st with
  | nil => rfl
  | cons p ps ih => simp [trainLoop, trainSample, sampleSeq, ih]

/-- The training inner loop appends exactly one loss per sample. -/
theorem trainLoop_losses_length (ops : TorchDhgcnOps Feat Lab T M O) :
    ∀ (st : DState M O) (samples : List (Feat × Lab)),
      (trainLoop ops st samples).2.1.length = samples.length := by
  intro st samples
  induction samples generalizing st with
  | nil => rfl
  | cons p ps ih => simp [trainLoop, ih]

/-- The evaluation loop leaves the model untouched. -/
theorem evalLoop_model (ops : TorchDhgcnOps Feat Lab T M O) :
    ∀ (st : DState M O) (samples : List (Feat × Lab)),
      (evalLoop ops st samples).1.1 = st.1 := by
  intro st samples
  induction samples generalizing st with
  | nil => rfl
  | cons p ps ih => simp [evalLoop, evalSample, ih]

/-- The evaluation loop leaves the optimizer state untouched. -/
theorem evalLoop_optState (ops : TorchDhgcnOps Feat Lab T M O) :
    ∀ (st : DState M O) (samples : List (Feat × Lab)),
      (evalLoop ops st samples).1.2.1 = st.2.1 := by
  intro st samples
  induction samples generalizing st with
  | nil => rfl
  | cons p ps ih => simp [evalLoop, evalSample, ih]

/-- The trace of the evaluation loop: a forward pass and a loss
computation per test sample — no zero_grad, backward, or optimizer
step. -/
theorem evalLoop_trace (ops : TorchDhgcnOps Feat Lab T M O) :
    ∀ (st : DState M O) (samples : List (Feat × Lab)),
      (evalLoop ops st samples).2
        = samples.flatMap (fun _ => [Ev.eval_forward, Ev.eval_loss_compute]) := by
  intro st samples
  induction samples generalizing st with
  | nil => rfl
  | cons p ps ih => simp [evalLoop, evalSample, ih]

/-- After a nonempty evaluation loop the variable `loss` holds the loss
of the last test sample, computed with the incoming (unchanged)
model. -/
theorem evalLoop_loss (ops : TorchDhgcnOps Feat Lab T M O) :
    ∀ (st : DState M O) (samples : List (Feat × Lab)), samples ≠ [] →
      (evalLoop ops st samples).1.2.2
        = samples.getLast?.map (fun p =>
            ops.lossVal (ops.forward st.1 (ops.toTensorFloat p.1))
              (ops.toLabelTensor p.2)) := by
  intro st samples
  induction samples generalizing st with
  | nil => intro h; exact absurd rfl h
  | cons p ps ih =>
    intro _
    cases ps with
    | nil => simp [evalLoop, evalSample]
    | cons q qs =>
      rw [List.getLast?_cons_cons]
      have h2 := ih ((st.1, st.2.1, some (ops.lossVal (ops.forward st.1
        (ops.toTensorFloat p.1)) (ops.toLabelTensor p.2))) : DState M O)
        (List.cons_ne_nil q qs)
      simp [evalLoop, evalSample] at h2 ⊢
      rw [h2]

end DhgcnLemmas

section DhgcnRunLemmas

variable {Feat Lab T M O : Type}

/-- Since `test_interval = 1`, the conditional test branch of the epoch
body is taken at every epoch; the epoch body unfolds to: training loop,
epoch-loss print, evaluation loop, test-loss print. -/
theorem epochBody_eq (ops : TorchDhgcnOps Feat Lab T M O)
    (train test : List (Feat × Lab)) (st : DState M O) (epoch_i : Nat) :
    epochBody ops train test st epoch_i
      = ((evalLoop ops (trainLoop ops (ops.trainMode st.1, st.2.1, st.2.2) train).1 test).1,
         Ev.model_train_mode
           :: (trainLoop ops (ops.trainMode st.1, st.2.1, st.2.2) train).2.2
           ++ [Ev.print_epoch_loss epoch_i
                (npMean (trainLoop ops (ops.trainMode st.1, st.2.1, st.2.2) train).2.1)]
           ++ (evalLoop ops (trainLoop ops (ops.trainMode st.1, st.2.1, st.2.2) train).1 test).2
           ++ [Ev.print_test_loss
                (evalLoop ops (trainLoop ops (ops.trainMode st.1, st.2.1, st.2.2) train).1 test).1.2.2]) := by
  simp [epochBody, test_interval, Nat.mod_one]

/-- Unrolling `stateAt` from the front. -/
theorem stateAt_shift (ops : TorchDhgcnOps Feat Lab T M O)
    (train test : List (Feat × Lab)) :
    ∀ (k : Nat) (st : DState M O) (e : Nat),
      stateAt ops train test st e (k + 1)
        = stateAt ops train test (epochBody ops train test st e).1 (e + 1) k := by
  intro k
  induction k with
  | zero => intro st e; simp [stateAt]
  | succ k ih =>
    intro st e
    have h1 : stateAt ops train test st e (k + 2)
        = (epochBody ops train test (stateAt ops train test st e (k + 1)) (e + (k + 1))).1 := rfl
    rw [h1, ih st e]
    have h2 : e + (k + 1) = (e + 1) + k := by omega
    rw [h2]
    rfl

/-- The trace of the epoch loop is the concatenation, over epoch
numbers `e + k` for `k < n`, of the epoch-body traces from the
successive states. -/
theorem runEpochs_trace (ops : TorchDhgcnOps Feat Lab T M O)
    (train test : List (Feat × Lab)) :
    ∀ (n : Nat) (st : DState M O) (e : Nat),
      (runEpochs ops train test st e n).2
        = (List.range n).flatMap (fun k =>
            (epochBody ops train test (stateAt ops train test st e k) (e + k)).2) := by
  intro n
  induction n with
  | zero => intro st e; rfl
  | succ n ih =>
    intro st e
    rw [List.range_succ_eq_map]
    simp only [List.flatMap_cons, List.flatMap_map]
    have h0 : stateAt ops train test st e 0 = st := rfl
    show (epochBody ops train test st e).2
        ++ (runEpochs ops train test (epochBody ops train test st e).1 (e + 1) n).2
      = (epochBody ops train test (stateAt ops train test st e 0) (e + 0)).2
        ++ (List.range n).flatMap (fun k =>
            (epochBody ops train test (stateAt ops train test st e (k + 1)) (e + (k + 1))).2)
    rw [h0, ih]
    congr 1
    apply List.flatMap_congr
    intro k _
    rw [stateAt_shift]
    have h2 : e + (k + 1) = (e + 1) + k := by omega
    rw [h2]

end DhgcnRunLemmas

section DhgcnClaims

variable {Feat Lab T M O : Type}

/-- The training-sample events of one epoch body: one `sampleSeq` per
training sample, nothing else. -/
theorem epochBody_filter_train (ops : TorchDhgcnOps Feat Lab T M O)
    (train test : List (Feat × Lab)) (st : DState M O) (epoch_i : Nat) :
    (epochBody ops train test st epoch_i).2.filter isTrainSampleEv
      = train.flatMap (fun _ => sampleSeq) := by
  rw [epochBody_eq]
  simp only [List.filter_cons, List.filter_append, trainLoop_trace, evalLoop_trace,
    filterBind]
  simp [isTrainSampleEv, sampleSeq]

/-- The epoch-loss print events of one epoch body: exactly one, carrying
`np.mean` of the loss list of that epoch. -/
theorem epochBody_filter_epochPrint (ops : TorchDhgcnOps Feat Lab T M O)
    (train test : List (Feat × Lab)) (st : DState M O) (epoch_i : Nat) :
    (epochBody ops train test st epoch_i).2.filter isEpochPrint
      = [Ev.print_epoch_loss epoch_i
          (npMean (trainLoop ops (ops.trainMode st.1, st.2.1, st.2.2) train).2.1)] := by
  rw [epochBody_eq]
  simp only [List.filter_cons, List.filter_append, trainLoop_trace, evalLoop_trace,
    filterBind]
  simp [isEpochPrint, sampleSeq, flatMapNil]

/-- The test-loss print events of one epoch body: exactly one, carrying
the current value of the variable `loss` after the evaluation loop. -/
theorem epochBody_filter_testPrint (ops : TorchDhgcnOps Feat Lab T M O)
    (train test : List (Feat × Lab)) (st : DState M O) (epoch_i : Nat) :
    (epochBody ops train test st epoch_i).2.filter isTestPrint
      = [Ev.print_test_loss
          (evalLoop ops (trainLoop ops (ops.trainMode st.1, st.2.1, st.2.2) train).1 test).1.2.2] := by
  rw [epochBody_eq]
  simp only [List.filter_cons, List.filter_append, trainLoop_trace, evalLoop_trace,
    filterBind]
  simp [isTestPrint, sampleSeq, flatMapNil]

/-- Claim C2: the DHGCN training phase runs exactly `num_epochs = 5`
epochs, and within each epoch, for every training sample in order, it
performs exactly the sequence zero_grad, forward pass, loss
computation, backward pass, optimizer step, in that order.  The filter
equality keeps every zero_grad/forward/loss/backward/step event of the
whole run (training and evaluation phases alike), so it also shows that
no parameter-updating operation occurs outside these per-sample
sequences; after the fifth epoch the loop ends. -/
theorem C2_training_schedule (ops : TorchDhgcnOps Feat Lab T M O) (m0 : M) (o0 : O)
    (x_0_train : List Feat) (y_train : List Lab)
    (x_0_test : List Feat) (y_test : List Lab) :
    num_epochs = 5
      ∧ (dhgcnRun ops m0 o0 x_0_train y_train x_0_test y_test).2.filter isTrainSampleEv
        = (List.range num_epochs).flatMap
            (fun _ => (x_0_train.zip y_train).flatMap (fun _ => sampleSeq)) := by
  refine ⟨rfl, ?_⟩
  show (runEpochs ops (x_0_train.zip y_train) (x_0_test.zip y_test)
      (m0, o0, none) 1 num_epochs).2.filter isTrainSampleEv = _
  rw [runEpochs_trace, filterBind]
  apply List.flatMap_congr
  intro k _
  exact epochBody_filter_train ops _ _ _ _

/-- Claim C9: the evaluation branch never modifies the model: it leaves
the model and the optimizer state exactly as they were, its trace
contains only forward passes and loss computations (no backward or
optimizer call), and consequently the state after the full epoch body
(training then evaluation) carries exactly the model and optimizer
state produced by the training loop. -/
theorem C9_eval_frame (ops : TorchDhgcnOps Feat Lab T M O) (st : DState M O)
    (train test : List (Feat × Lab)) (epoch_i : Nat) :
    (evalLoop ops st test).1.1 = st.1
      ∧ (evalLoop ops st test).1.2.1 = st.2.1
      ∧ (evalLoop ops st test).2
        = test.flatMap (fun _ => [Ev.eval_forward, Ev.eval_loss_compute])
      ∧ (epochBody ops train test st epoch_i).1.1
        = (trainLoop ops (ops.trainMode st.1, st.2.1, st.2.2) train).1.1
      ∧ (epochBody ops train test st epoch_i).1.2.1
        = (trainLoop ops (ops.trainMode st.1, st.2.1, st.2.2) train).1.2.1 := by
  refine ⟨evalLoop_model ops st test, evalLoop_optState ops st test,
    evalLoop_trace ops st test, ?_, ?_⟩
  · rw [epochBody_eq]
    exact evalLoop_model ops _ test
  · rw [epochBody_eq]
    exact evalLoop_optState ops _ test

/-- Claim C8: for every epoch, the value printed as `Test_loss` is the
MSE loss of only the last test sample: the variable `loss` is
overwritten on each iteration of the no-grad evaluation loop and the
print lies outside that loop, so the reported value is the loss of
`model` (in its state after the training phase of that epoch) on the final test
sample, not an aggregate over the test set. -/
theorem C8_test_loss_last_sample (ops : TorchDhgcnOps Feat Lab T M O)
    (st : DState M O) (train test : List (Feat × Lab)) (epoch_i : Nat)
    (h : test ≠ []) :
    (epochBody ops train test st epoch_i).2.filter isTestPrint
      = [Ev.print_test_loss (test.getLast?.map (fun p =>
          ops.lossVal
            (ops.forward (trainLoop ops (ops.trainMode st.1, st.2.1, st.2.2) train).1.1
              (ops.toTensorFloat p.1))
            (ops.toLabelTensor p.2)))] := by
  rw [epochBody_filter_testPrint, evalLoop_loss ops _ test h]

/-- Claim C10: the per-epoch training loss printed for epoch number
`1 + k` is `np.mean` of exactly the loss list accumulated during that
epoch: `epoch_loss` restarts empty at each epoch (the training loop of
epoch `1 + k` starts from the empty list, from the state reached after
`k` epoch bodies), and that list carries exactly one appended loss per
training sample, so the printed mean averages one loss per training
sample of that epoch and includes no value from any other epoch. -/
theorem C10_epoch_loss_mean (ops : TorchDhgcnOps Feat Lab T M O) (m0 : M) (o0 : O)
    (x_0_train : List Feat) (y_train : List Lab)
    (x_0_test : List Feat) (y_test : List Lab) :
    (dhgcnRun ops m0 o0 x_0_train y_train x_0_test y_test).2.filter isEpochPrint
      = (List.range num_epochs).map (fun k =>
          Ev.print_epoch_loss (1 + k)
            (npMean (trainLoop ops
              ((ops.trainMode (stateAt ops (x_0_train.zip y_train) (x_0_test.zip y_test)
                  (m0, o0, none) 1 k).1,
                (stateAt ops (x_0_train.zip y_train) (x_0_test.zip y_test)
                  (m0, o0, none) 1 k).2.1,
                (stateAt ops (x_0_train.zip y_train) (x_0_test.zip y_test)
                  (m0, o0, none) 1 k).2.2) : DState M O)
              (x_0_train.zip y_train)).2.1))
      ∧ ∀ st : DState M O,
          (trainLoop ops st (x_0_train.zip y_train)).2.1.length
            = (x_0_train.zip y_train).length := by
  constructor
  · show (runEpochs ops (x_0_train.zip y_train) (x_0_test.zip y_test)
        (m0, o0, none) 1 num_epochs).2.filter isEpochPrint = _
    rw [runEpochs_trace, filterBind, ← bindSingleton]
    apply List.flatMap_congr
    intro k _
    exact epochBody_filter_epochPrint ops _ _ _ _
  · intro st
    exact trainLoop_losses_length ops st _

end DhgcnClaims

section ScaClaims

variable {SC Mat Tensor : Type}

/-- Closed form of the SCA-CMPS pre-processing fold, for an arbitrary
initial accumulator. -/
theorem scaPreprocess_acc (ops : ScaExternalOps SC Mat Tensor) :
    ∀ (scs : List SC)
      (acc : List Tensor × List Tensor × List Tensor × List Tensor),
      scs.foldl (scaLoopStep ops) acc
        = (acc.1 ++ scs.map (fun sc => ops.toSparseTensor (ops.down_laplacian_matrix sc 1)),
           acc.2.1 ++ scs.map (fun sc => ops.toSparseTensor (ops.down_laplacian_matrix sc 2)),
           acc.2.2.1 ++ scs.map (fun sc =>
             ops.toSparseTensor (ops.transposeT (ops.incidence_matrix sc 1))),
           acc.2.2.2 ++ scs.map (fun sc =>
             ops.toSparseTensor (ops.transposeT (ops.incidence_matrix sc 2)))) := by
  intro scs
  induction scs with
  | nil => intro acc; simp
  | cons sc scs ih =>
    intro acc
    show scs.foldl (scaLoopStep ops) (scaLoopStep ops acc sc) = _
    rw [ih]
    simp [scaLoopStep]

/-- Claim C5: for every list of simplicial complexes, the SCA-CMPS
pre-processing loop produces four lists — the rank-1 down-Laplacians,
the rank-2 down-Laplacians, the transposed rank-1 incidence matrices
and the transposed rank-2 incidence matrices, each converted to a
sparse tensor — whose lengths equal the number of complexes and whose
`i`-th entries are derived (by exactly those four external calls) from
the `i`-th complex. -/
theorem C5_preprocessing_lists (ops : ScaExternalOps SC Mat Tensor) (scs : List SC) :
    (scaPreprocess ops scs).1
        = scs.map (fun sc => ops.toSparseTensor (ops.down_laplacian_matrix sc 1))
      ∧ (scaPreprocess ops scs).2.1
        = scs.map (fun sc => ops.toSparseTensor (ops.down_laplacian_matrix sc 2))
      ∧ (scaPreprocess ops scs).2.2.1
        = scs.map (fun sc => ops.toSparseTensor (ops.transposeT (ops.incidence_matrix sc 1)))
      ∧ (scaPreprocess ops scs).2.2.2
        = scs.map (fun sc => ops.toSparseTensor (ops.transposeT (ops.incidence_matrix sc 2)))
      ∧ (scaPreprocess ops scs).1.length = scs.length
      ∧ (scaPreprocess ops scs).2.1.length = scs.length
      ∧ (scaPreprocess ops scs).2.2.1.length = scs.length
      ∧ (scaPreprocess ops scs).2.2.2.length = scs.length
      ∧ (∀ i : Nat,
          (scaPreprocess ops scs).1[i]?
            = (scs[i]?).map (fun sc => ops.toSparseTensor (ops.down_laplacian_matrix sc 1))
          ∧ (scaPreprocess ops scs).2.1[i]?
            = (scs[i]?).map (fun sc => ops.toSparseTensor (ops.down_laplacian_matrix sc 2))
          ∧ (scaPreprocess ops scs).2.2.1[i]?
            = (scs[i]?).map (fun sc =>
                ops.toSparseTensor (ops.transposeT (ops.incidence_matrix sc 1)))
          ∧ (scaPreprocess ops scs).2.2.2[i]?
            = (scs[i]?).map (fun sc =>
                ops.toSparseTensor (ops.transposeT (ops.incidence_matrix sc 2)))) := by
  have h := scaPreprocess_acc ops scs ([], [], [], [])
  simp only [List.nil_append] at h
  rw [show scaPreprocess ops scs = scs.foldl (scaLoopStep ops) ([], [], [], []) from rfl, h]
  refine ⟨rfl, rfl, rfl, rfl, by simp, by simp, by simp, by simp, ?_⟩
  intro i
  refine ⟨?_, ?_, ?_, ?_⟩ <;> simp [List.getElem?_map]

end ScaClaims

/-- Claim C4: the train/test split is deterministic and
order-preserving.  Syntactically, every `train_test_split` call in both
notebooks passes `test_size=test_size` with `test_size` bound to `0.2`
and `shuffle=False`; semantically, on parallel arrays of 100 samples
the training part is exactly the first 80 elements in original order
and the test part exactly the last 20 in original order, so the `i`-th
training entries of any two parallel arrays (features, matrices,
labels) come from the same original sample `i`. -/
theorem C4_split_deterministic {α β : Type} (xs : List α) (ys : List β)
    (hx : xs.length = 100) (hy : ys.length = 100) :
    (splitCallsStandard scaCells && splitCallsStandard dhgcnCells) = true
      ∧ (train_test_split xs (1/5)).1 = xs.take 80
      ∧ (train_test_split xs (1/5)).2 = xs.drop 80
      ∧ (train_test_split ys (1/5)).1 = ys.take 80
      ∧ (train_test_split ys (1/5)).2 = ys.drop 80
      ∧ (train_test_split xs (1/5)).1.length = 80
      ∧ (train_test_split xs (1/5)).2.length = 20
      ∧ (∀ i : Nat, (train_test_split xs (1/5)).1[i]?
            = if i < 80 then xs[i]? else none)
      ∧ (∀ i : Nat, (train_test_split ys (1/5)).1[i]?
            = if i < 80 then ys[i]? else none)
      ∧ (∀ i : Nat, (train_test_split xs (1/5)).2[i]? = xs[80 + i]?)
      ∧ (∀ i : Nat, (train_test_split ys (1/5)).2[i]? = ys[80 + i]?) := by
  have h1 : ((1 / 5 : ℚ) * ((100 : ℕ) : ℚ)) = ((20 : ℤ) : ℚ) := by norm_num
  have h3 : (Int.ceil ((1 / 5 : ℚ) * ((100 : ℕ) : ℚ))).toNat = 20 := by
    rw [h1, Int.ceil_intCast]
    rfl
  have hxs : train_test_split xs (1 / 5) = (xs.take 80, xs.drop 80) := by
    simp only [train_test_split, hx, h3]
  have hys : train_test_split ys (1 / 5) = (ys.take 80, ys.drop 80) := by
    simp only [train_test_split, hy, h3]
  rw [hxs, hys]
  refine ⟨by rfl, rfl, rfl, rfl, rfl, by simp [hx], by simp [hx], ?_, ?_, ?_, ?_⟩
  · intro i
    exact List.getElem?_take
  · intro i
    exact List.getElem?_take
  · intro i
    exact List.getElem?_drop xs 80 i
  · intro i
    exact List.getElem?_drop ys 80 i

/-- Witness for claim C4: the split facts instantiated at two concrete
parallel arrays of 100 samples. -/
theorem C4_witness :
    (List.range 100).length = 100
      ∧ ((splitCallsStandard scaCells && splitCallsStandard dhgcnCells) = true
         ∧ (train_test_split (List.range 100) (1/5)).1 = (List.range 100).take 80
         ∧ (train_test_split (List.range 100) (1/5)).2 = (List.range 100).drop 80
         ∧ (train_test_split (List.range 100) (1/5)).1 = (List.range 100).take 80
         ∧ (train_test_split (List.range 100) (1/5)).2 = (List.range 100).drop 80
         ∧ (train_test_split (List.range 100) (1/5)).1.length = 80
         ∧ (train_test_split (List.range 100) (1/5)).2.length = 20
         ∧ (∀ i : Nat, (train_test_split (List.range 100) (1/5)).1[i]?
               = if i < 80 then (List.range 100)[i]? else none)
         ∧ (∀ i : Nat, (train_test_split (List.range 100) (1/5)).1[i]?
               = if i < 80 then (List.range 100)[i]? else none)
         ∧ (∀ i : Nat, (train_test_split (List.range 100) (1/5)).2[i]?
               = (List.range 100)[80 + i]?)
         ∧ (∀ i : Nat, (train_test_split (List.range 100) (1/5)).2[i]?
               = (List.range 100)[80 + i]?)) :=
  ⟨by rfl, C4_split_deterministic (List.range 100) (List.range 100) (by rfl) (by rfl)⟩

/-- A trivial instantiation of the external DHGCN operations on `Unit`
carriers (all losses 0), used to witness hypotheses at concrete
inputs. -/
def trivOps : TorchDhgcnOps Unit Unit Unit Unit Unit where
  toTensorFloat := fun _ => ()
  toLabelTensor := fun _ => ()
  trainMode := fun m => m
  zero_grad := fun m => m
  forward := fun _ _ => ()
  lossVal := fun _ _ => 0
  backward := fun m _ _ => m
  step := fun m o => (m, o)

/-- Witness for claim C8: the test-loss print characterization
instantiated at a concrete one-sample test set. -/
theorem C8_witness :
    ([((), ())] : List (Unit × Unit)) ≠ []
      ∧ (epochBody trivOps ([] : List (Unit × Unit)) [((), ())]
            (((), (), none) : DState Unit Unit) 1).2.filter isTestPrint
        = [Ev.print_test_loss (([((), ())] : List (Unit × Unit)).getLast?.map (fun p =>
            trivOps.lossVal
              (trivOps.forward
                (trainLoop trivOps
                  ((trivOps.trainMode (((), (), none) : DState Unit Unit).1,
                    (((), (), none) : DState Unit Unit).2.1,
                    (((), (), none) : DState Unit Unit).2.2) : DState Unit Unit)
                  ([] : List (Unit × Unit))).1.1
                (trivOps.toTensorFloat p.1))
              (trivOps.toLabelTensor p.2)))] :=
  ⟨by decide,
   C8_test_loss_last_sample trivOps (((), (), none) : DState Unit Unit)
     ([] : List (Unit × Unit)) [((), ())] 1 (by decide)⟩
